import Mathlib

/-!
Verification of the BeatMatch backend (src/main.py).

The service estimates a tempo (BPM) for an uploaded WAV file, classifies it into
a musical style, and recommends record labels by querying an external music
catalog (Spotify).  The development below is a shallow embedding of the Python
source: tempos are modelled as rationals (every finite float is a rational and
all comparisons in the source are against integer thresholds), the external
catalog client is modelled as a record of effectful operations returning
`Except` (an exception raised by the client maps to `Except.error`), and the
HTTP handler's temporary-file lifecycle is modelled by explicit Booleans
recording whether the temporary file was created and whether it remains on disk
after the handler finishes.
-/

namespace BeatMatch

/-- Embeds `classify_style` (src/main.py lines 47-60): ordered threshold chain
mapping a tempo to one of six style strings. -/
def classify_style (tempo : ℚ) : String :=
  if tempo < 90 then "Ambient / Downtempo"
  else if tempo < 115 then "Pop / R&B"
  else if tempo < 128 then "House"
  else if tempo < 140 then "Techno"
  else if tempo < 160 then "Drum & Bass / Jungle"
  else "Fast Electronic / Hardcore"

/-- Embeds `get_genre_keywords` (src/main.py lines 63-76): the same threshold
chain mapping a tempo to a list of genre keywords. -/
def get_genre_keywords (tempo : ℚ) : List String :=
  if tempo < 90 then ["ambient", "downtempo", "chillout", "lofi"]
  else if tempo < 115 then ["pop", "rnb", "indie", "alternative"]
  else if tempo < 128 then ["house", "deep house", "tech house"]
  else if tempo < 140 then ["techno", "minimal techno", "progressive"]
  else if tempo < 160 then ["drum and bass", "dnb", "jungle"]
  else ["hardcore", "hardstyle", "gabber"]

/-- A recommended label entry, the dict `{name: ..., url: ...}` built by
`search_labels_on_spotify`. -/
structure LabelRec where
  name : String
  url : String
deriving DecidableEq

/-- An artist as used by the search loop: its `id` field and the
`external_urls.spotify` profile url (missing url keys collapse to `""`,
exactly as `artist.get("external_urls", {}).get("spotify", "")` does). -/
structure Artist where
  id : String
  url : String
deriving DecidableEq

/-- A top track as used by the search loop: only its album's `label` field is
read; a missing album or label key collapses to `""`, exactly as
`track.get("album", {}).get("label", "")` does. -/
structure Track where
  label : String
deriving DecidableEq

/-- The external catalog client (the `spotipy` client `sp`).  `searchArtists q`
models `sp.search(q=q, type="artist", limit=5)` flattened to the artist items
(a `None` or key-missing response collapses to the empty list, matching the
falsiness guards in the source); `artistTopTracks i` models
`sp.artist_top_tracks(i)` flattened to the track items.  An exception raised by
a call is `Except.error` carrying `str(e)`. -/
structure Catalog where
  searchArtists : String → Except String (List Artist)
  artistTopTracks : String → Except String (List Track)

/-- The names of the entries collected so far: the list comprehension
`[l["name"] for l in labels]` from src/main.py line 107. -/
def namesOf (ls : List LabelRec) : List String :=
  ls.map LabelRec.name

/-- The placeholder list returned when the catalog client is not configured
(src/main.py lines 82-86). -/
def notConfiguredLabels : List LabelRec :=
  [⟨"Spotify API not configured", "https://developer.spotify.com/dashboard"⟩,
   ⟨"Set SPOTIFY_CLIENT_ID", "https://developer.spotify.com/dashboard"⟩,
   ⟨"Set SPOTIFY_CLIENT_SECRET", "https://developer.spotify.com/dashboard"⟩]

/-- Embeds the append guard of src/main.py lines 105-111: append
`{name: label, url: artist_url}` only when the label is non-empty and not
already present by name. -/
def appendLabel (artistUrl : String) (t : Track) (ls : List LabelRec) : List LabelRec :=
  if t.label ≠ "" ∧ t.label ∉ namesOf ls then ls ++ [⟨t.label, artistUrl⟩] else ls

/-- Embeds the inner track loop of src/main.py lines 103-114 (already
restricted to the first two tracks by the caller).  The Boolean is `true` when
the loop hit `len(labels) >= 8` and returned early. -/
def processTracks (artistUrl : String) : List Track → List LabelRec → List LabelRec × Bool
  | [], ls => (ls, false)
  | t :: ts, ls =>
    if 8 ≤ (appendLabel artistUrl t ls).length then (appendLabel artistUrl t ls, true)
    else processTracks artistUrl ts (appendLabel artistUrl t ls)

/-- Embeds the artist loop of src/main.py lines 97-114: for each artist fetch
its top tracks (a failing call aborts with the error) and run the track loop on
the first two tracks; propagate an early return. -/
def processArtists (c : Catalog) : List Artist → List LabelRec → Except String (List LabelRec × Bool)
  | [], ls => .ok (ls, false)
  | a :: as, ls =>
    match c.artistTopTracks a.id with
    | .error e => .error e
    | .ok tracks =>
      let r := processTracks a.url (tracks.take 2) ls
      if r.2 then .ok r else processArtists c as r.1

/-- Embeds the keyword loop of src/main.py lines 93-114: for each of the
keywords search for artists with query `genre:<keyword>` (a failing call
aborts with the error) and run the artist loop; propagate an early return. -/
def processKeywords (c : Catalog) : List String → List LabelRec → Except String (List LabelRec × Bool)
  | [], ls => .ok (ls, false)
  | k :: ks, ls =>
    match c.searchArtists ("genre:" ++ k) with
    | .error e => .error e
    | .ok artists =>
      match processArtists c artists ls with
      | .error e => .error e
      | .ok r => if r.2 then .ok r else processKeywords c ks r.1

/-- Embeds `get_fallback_labels` (src/main.py lines 127-158).  Note the source
has only five branches: every tempo of at least 140 falls into the final
`else`. -/
def get_fallback_labels (tempo : ℚ) : List LabelRec :=
  if tempo < 90 then
    [⟨"Ninja Tune", "https://open.spotify.com/label/0aOC4pKKYl9wDLqaScqBKq"⟩,
     ⟨"Ghostly International", "https://open.spotify.com/label/0f1J4JvjYbVB1p1ZvLQmZg"⟩,
     ⟨"Warp Records", "https://open.spotify.com/label/0aT7J5CbM8kHPVnFLGZsLz"⟩]
  else if tempo < 115 then
    [⟨"XL Recordings", "https://open.spotify.com/label/0aT7J5CbM8kHPVnFLGZsLz"⟩,
     ⟨"Interscope Records", "https://open.spotify.com/label/0aT7J5CbM8kHPVnFLGZsLz"⟩,
     ⟨"Republic Records", "https://open.spotify.com/label/0aT7J5CbM8kHPVnFLGZsLz"⟩]
  else if tempo < 128 then
    [⟨"Defected Records", "https://open.spotify.com/label/0aT7J5CbM8kHPVnFLGZsLz"⟩,
     ⟨"Toolroom Records", "https://open.spotify.com/label/0aT7J5CbM8kHPVnFLGZsLz"⟩,
     ⟨"Spinnin\x27 Deep", "https://open.spotify.com/label/0aT7J5CbM8kHPVnFLGZsLz"⟩]
  else if tempo < 140 then
    [⟨"Drumcode", "https://open.spotify.com/label/0aT7J5CbM8kHPVnFLGZsLz"⟩,
     ⟨"Afterlife", "https://open.spotify.com/label/0aT7J5CbM8kHPVnFLGZsLz"⟩,
     ⟨"KNTXT", "https://open.spotify.com/label/0aT7J5CbM8kHPVnFLGZsLz"⟩]
  else
    [⟨"Hospital Records", "https://open.spotify.com/label/0aT7J5CbM8kHPVnFLGZsLz"⟩,
     ⟨"RAM Records", "https://open.spotify.com/label/0aT7J5CbM8kHPVnFLGZsLz"⟩,
     ⟨"Critical Music", "https://open.spotify.com/label/0aT7J5CbM8kHPVnFLGZsLz"⟩]

/-- Embeds `search_labels_on_spotify` (src/main.py lines 79-124).  `sp = none`
models missing credentials.  An early return from the nested loops (8 labels
collected) returns the list as is; a raised exception returns the single
diagnostic entry; otherwise an empty harvest is replaced by the curated
fallback and the result is truncated to 8. -/
def search_labels_on_spotify (sp : Option Catalog) (tempo : ℚ) : List LabelRec :=
  match sp with
  | none => notConfiguredLabels
  | some c =>
    match processKeywords c ((get_genre_keywords tempo).take 2) [] with
    | .error e => [⟨"Search error: " ++ e, ""⟩]
    | .ok (ls, true) => ls
    | .ok (ls, false) => (if ls.isEmpty then get_fallback_labels tempo else ls).take 8

/-- Embeds the final line of `detect_bpm_aubio` (src/main.py line 203):
`return float(bpm) if bpm > 0 else 120.0`, with the raw BPM reported by the
aubio detector (an external DSP collaborator, out of scope per the spec) taken
as the argument. -/
def detect_bpm_aubio (rawBpm : ℚ) : ℚ :=
  if 0 < rawBpm then rawBpm else 120

/-- Outcome of one `/analyze` request: a success payload, an `HTTPException`
with a status code and detail, or an exception that escapes the handler
uncaught (not converted to a clean HTTP error by the handler's own code). -/
inductive HandlerOutcome where
  | ok (tempo : ℚ) (style : String) (labels : List LabelRec)
  | clientError (status : Nat) (detail : String)
  | serverError (status : Nat) (detail : String)
  | uncaught (msg : String)
deriving DecidableEq

/-- Result of one `/analyze` request together with the temporary-file
lifecycle: whether a temporary file was created during the call and whether it
is still on disk when the call finishes. -/
structure AnalyzeResult where
  outcome : HandlerOutcome
  tempCreated : Bool
  tempRemains : Bool
deriving DecidableEq

/-- The environment of one `/analyze` request: the uploaded filename, the
outcome of reading the upload body and writing it to the temporary file
(`await file.read()` / `tmp_file.write` / `flush`, src/main.py lines 223-225),
the outcome of the decode-and-detect pipeline of `detect_bpm_aubio` up to the
raw BPM reported by aubio (decoding may raise), and the global catalog
client. -/
structure AnalyzeEnv where
  filename : String
  readContent : Except String String
  rawBpm : Except String ℚ
  sp : Option Catalog

/-- Embeds the filename validation `file.filename.lower().endswith(".wav")`
(src/main.py line 216): lowercase every character of the filename (Python's
`str.lower`, restricted here to its ASCII action) and test whether the
character sequence `.wav` is a suffix of the result. -/
def wavCheck (filename : String) : Bool :=
  List.isSuffixOf ((".wav").data) (filename.data.map Char.toLower)

/-- Embeds the `/analyze` handler `analyze_track` (src/main.py lines 206-249).
The extension check runs before the temporary file is created.  The temporary
file is created by `NamedTemporaryFile(delete=False)` on entering the `with`
block, but `temp_path` is assigned only AFTER the body has been read and
written (line 226); if reading or writing raises, the `finally` block
evaluates `os.path.exists(temp_path)` with `temp_path` unbound, so the cleanup
itself raises `UnboundLocalError` and the temporary file is never unlinked:
that path is modelled with `tempRemains = true`.  Failures after `temp_path`
is assigned are caught, converted to a 500 `HTTPException`, and the `finally`
block removes the file. -/
def analyze_track (env : AnalyzeEnv) : AnalyzeResult :=
  if wavCheck env.filename = false then
    ⟨.clientError 400 ("Only WAV files are supported"), false, false⟩
  else
    match env.readContent with
    | .error _ =>
      ⟨.uncaught ("UnboundLocalError: local variable temp_path referenced before assignment"),
       true, true⟩
    | .ok _ =>
      match env.rawBpm with
      | .error m => ⟨.serverError 500 ("Analysis failed: " ++ m), true, false⟩
      | .ok raw =>
        let tempo := detect_bpm_aubio raw
        ⟨.ok tempo (classify_style tempo) (search_labels_on_spotify env.sp tempo), true, false⟩

/-! Helper notions used by the theorems (not part of the source). -/

/-- Index of the half-open BPM interval containing `tempo`, following the six
thresholds shared by `classify_style` and `get_genre_keywords`. -/
def tempoBucket (tempo : ℚ) : Nat :=
  if tempo < 90 then 0
  else if tempo < 115 then 1
  else if tempo < 128 then 2
  else if tempo < 140 then 3
  else if tempo < 160 then 4
  else 5

/-- The six style labels, indexed by bucket. -/
def styleOfBucket : Nat → String
  | 0 => "Ambient / Downtempo"
  | 1 => "Pop / R&B"
  | 2 => "House"
  | 3 => "Techno"
  | 4 => "Drum & Bass / Jungle"
  | _ => "Fast Electronic / Hardcore"

/-- The six keyword lists, indexed by bucket. -/
def keywordsOfBucket : Nat → List String
  | 0 => ["ambient", "downtempo", "chillout", "lofi"]
  | 1 => ["pop", "rnb", "indie", "alternative"]
  | 2 => ["house", "deep house", "tech house"]
  | 3 => ["techno", "minimal techno", "progressive"]
  | 4 => ["drum and bass", "dnb", "jungle"]
  | _ => ["hardcore", "hardstyle", "gabber"]

/-- The five fallback lists of `get_fallback_labels`, indexed by bucket with
buckets 4 and 5 merged into index 4. -/
def fallbackOfBucket : Nat → List LabelRec
  | 0 => [⟨"Ninja Tune", "https://open.spotify.com/label/0aOC4pKKYl9wDLqaScqBKq"⟩,
          ⟨"Ghostly International", "https://open.spotify.com/label/0f1J4JvjYbVB1p1ZvLQmZg"⟩,
          ⟨"Warp Records", "https://open.spotify.com/label/0aT7J5CbM8kHPVnFLGZsLz"⟩]
  | 1 => [⟨"XL Recordings", "https://open.spotify.com/label/0aT7J5CbM8kHPVnFLGZsLz"⟩,
          ⟨"Interscope Records", "https://open.spotify.com/label/0aT7J5CbM8kHPVnFLGZsLz"⟩,
          ⟨"Republic Records", "https://open.spotify.com/label/0aT7J5CbM8kHPVnFLGZsLz"⟩]
  | 2 => [⟨"Defected Records", "https://open.spotify.com/label/0aT7J5CbM8kHPVnFLGZsLz"⟩,
          ⟨"Toolroom Records", "https://open.spotify.com/label/0aT7J5CbM8kHPVnFLGZsLz"⟩,
          ⟨"Spinnin\x27 Deep", "https://open.spotify.com/label/0aT7J5CbM8kHPVnFLGZsLz"⟩]
  | 3 => [⟨"Drumcode", "https://open.spotify.com/label/0aT7J5CbM8kHPVnFLGZsLz"⟩,
          ⟨"Afterlife", "https://open.spotify.com/label/0aT7J5CbM8kHPVnFLGZsLz"⟩,
          ⟨"KNTXT", "https://open.spotify.com/label/0aT7J5CbM8kHPVnFLGZsLz"⟩]
  | _ => [⟨"Hospital Records", "https://open.spotify.com/label/0aT7J5CbM8kHPVnFLGZsLz"⟩,
          ⟨"RAM Records", "https://open.spotify.com/label/0aT7J5CbM8kHPVnFLGZsLz"⟩,
          ⟨"Critical Music", "https://open.spotify.com/label/0aT7J5CbM8kHPVnFLGZsLz"⟩]

/-- The closed set of six style labels. -/
def styleLabels : List String :=
  ["Ambient / Downtempo", "Pop / R&B", "House", "Techno",
   "Drum & Bass / Jungle", "Fast Electronic / Hardcore"]

/-- Invariant of a collected label list: names are pairwise distinct and
non-empty. -/
def goodLabels (ls : List LabelRec) : Prop :=
  (namesOf ls).Nodup ∧ ∀ l ∈ ls, l.name ≠ ""

/-- A configured catalog client whose every call succeeds with no results. -/
def emptyCatalog : Catalog :=
  ⟨fun _ => .ok [], fun _ => .ok []⟩

/-- A configured catalog client whose every call raises. -/
def failingCatalog : Catalog :=
  ⟨fun _ => .error ("network down"), fun _ => .error ("network down")⟩

/-! Basic lemmas: the two threshold chains and the fallback table factor
through the bucket index. -/

/-- The bucket index is at most 5. -/
theorem tempoBucket_le (t : ℚ) : tempoBucket t ≤ 5 := by
  unfold tempoBucket
  split_ifs <;> norm_num

/-- The style chain factors through the bucket index. -/
theorem classify_style_eq (t : ℚ) : classify_style t = styleOfBucket (tempoBucket t) := by
  unfold classify_style tempoBucket
  split_ifs <;> rfl

/-- The keyword chain factors through the bucket index. -/
theorem get_genre_keywords_eq (t : ℚ) :
    get_genre_keywords t = keywordsOfBucket (tempoBucket t) := by
  unfold get_genre_keywords tempoBucket
  split_ifs <;> rfl

/-- The fallback table factors through the bucket index with buckets 4 and 5
merged. -/
theorem get_fallback_labels_eq (t : ℚ) :
    get_fallback_labels t = fallbackOfBucket (min (tempoBucket t) 4) := by
  unfold get_fallback_labels tempoBucket
  split_ifs <;> rfl

/-- The six style labels are pairwise distinct, so the style determines the
bucket. -/
theorem styleOfBucket_inj {a b : Nat} (ha : a ≤ 5) (hb : b ≤ 5)
    (h : styleOfBucket a = styleOfBucket b) : a = b := by
  interval_cases a <;> interval_cases b <;> revert h <;> decide

/-- The six keyword lists are pairwise distinct, so the keyword list determines
the bucket. -/
theorem keywordsOfBucket_inj {a b : Nat} (ha : a ≤ 5) (hb : b ≤ 5)
    (h : keywordsOfBucket a = keywordsOfBucket b) : a = b := by
  interval_cases a <;> interval_cases b <;> revert h <;> decide

/-- Every bucket's style label is one of the six labels. -/
theorem styleOfBucket_mem {n : Nat} (h : n ≤ 5) : styleOfBucket n ∈ styleLabels := by
  interval_cases n <;> decide

/-- Claim C1, counterexample.  The claim asserts the six labels without spaces
around the slash, in particular `classify_style(90.0) == "Pop/R&B"`; the source
returns `"Pop / R&B"` (spaces around the slash, src/main.py line 52), so the
claimed equality fails at tempo 90. -/
theorem C1_counterexample :
    classify_style 90 = "Pop / R&B" ∧ classify_style 90 ≠ "Pop/R&B" := by
  constructor <;> decide

/-- Claim C1, amended.  For every tempo `t`, `classify_style t` returns exactly
one of the six fixed labels "Ambient / Downtempo", "Pop / R&B", "House",
"Techno", "Drum & Bass / Jungle", "Fast Electronic / Hardcore" (spaces around
the slash), chosen by the ascending half-open partition with thresholds 90,
115, 128, 140, 160, boundaries closed on the left and open on the right (the
first interval extends below 0 to every tempo under 90); in particular
`classify_style 90 = "Pop / R&B"` and
`classify_style 89.999 = "Ambient / Downtempo"`. -/
theorem C1_theorem :
    (∀ t : ℚ, classify_style t ∈ styleLabels)
  ∧ (∀ t : ℚ, t < 90 → classify_style t = "Ambient / Downtempo")
  ∧ (∀ t : ℚ, 90 ≤ t → t < 115 → classify_style t = "Pop / R&B")
  ∧ (∀ t : ℚ, 115 ≤ t → t < 128 → classify_style t = "House")
  ∧ (∀ t : ℚ, 128 ≤ t → t < 140 → classify_style t = "Techno")
  ∧ (∀ t : ℚ, 140 ≤ t → t < 160 → classify_style t = "Drum & Bass / Jungle")
  ∧ (∀ t : ℚ, 160 ≤ t → classify_style t = "Fast Electronic / Hardcore")
  ∧ classify_style 90 = "Pop / R&B"
  ∧ classify_style (89999/1000) = "Ambient / Downtempo" := by
  refine ⟨?_, ?_, ?_, ?_, ?_, ?_, ?_, ?_, ?_⟩
  · intro t
    rw [classify_style_eq]
    exact styleOfBucket_mem (tempoBucket_le t)
  · intro t h
    unfold classify_style
    rw [if_pos h]
  · intro t h1 h2
    unfold classify_style
    rw [if_neg (not_lt.mpr h1), if_pos h2]
  · intro t h1 h2
    unfold classify_style
    rw [if_neg (by linarith : ¬ t < 90), if_neg (not_lt.mpr h1), if_pos h2]
  · intro t h1 h2
    unfold classify_style
    rw [if_neg (by linarith : ¬ t < 90), if_neg (by linarith : ¬ t < 115),
      if_neg (not_lt.mpr h1), if_pos h2]
  · intro t h1 h2
    unfold classify_style
    rw [if_neg (by linarith : ¬ t < 90), if_neg (by linarith : ¬ t < 115),
      if_neg (by linarith : ¬ t < 128), if_neg (not_lt.mpr h1), if_pos h2]
  · intro t h1
    unfold classify_style
    rw [if_neg (by linarith : ¬ t < 90), if_neg (by linarith : ¬ t < 115),
      if_neg (by linarith : ¬ t < 128), if_neg (by linarith : ¬ t < 140),
      if_neg (not_lt.mpr h1)]
  · decide
  · norm_num [classify_style]

/-- Claim C1, witness: the amended interval statements evaluated at concrete
tempos. -/
theorem C1_witness :
    classify_style 50 = "Ambient / Downtempo" ∧ classify_style 130 = "Techno" ∧
    classify_style 200 = "Fast Electronic / Hardcore" :=
  ⟨C1_theorem.2.1 50 (by norm_num),
   C1_theorem.2.2.2.2.1 130 (by norm_num) (by norm_num),
   C1_theorem.2.2.2.2.2.2.1 200 (by norm_num)⟩

/-- Claim C2: `classify_style` and `get_genre_keywords` are derived from the
identical interval partition: both factor through the same bucket index, and no
tempos exist at which the two functions disagree about the bucket (two tempos
get the same style exactly when they get the same keyword list). -/
theorem C2_theorem :
    (∀ t : ℚ, classify_style t = styleOfBucket (tempoBucket t) ∧
        get_genre_keywords t = keywordsOfBucket (tempoBucket t))
  ∧ ∀ t₁ t₂ : ℚ, classify_style t₁ = classify_style t₂ ↔
      get_genre_keywords t₁ = get_genre_keywords t₂ := by
  refine ⟨fun t => ⟨classify_style_eq t, get_genre_keywords_eq t⟩, fun t₁ t₂ => ?_⟩
  rw [classify_style_eq, classify_style_eq, get_genre_keywords_eq, get_genre_keywords_eq]
  constructor
  · intro h
    rw [styleOfBucket_inj (tempoBucket_le t₁) (tempoBucket_le t₂) h]
  · intro h
    rw [keywordsOfBucket_inj (tempoBucket_le t₁) (tempoBucket_le t₂) h]

/-- Claim C2, witness: the lockstep equivalence evaluated at two concrete
tempos of the same bucket. -/
theorem C2_witness : get_genre_keywords 115 = get_genre_keywords 127 :=
  (C2_theorem.2 115 127).mp (by decide)

/-! Invariants of the label-collecting loops. -/

/-- The empty collection satisfies the label invariant. -/
theorem goodLabels_nil : goodLabels [] := by
  constructor <;> simp [namesOf]

/-- The guarded append preserves the label invariant. -/
theorem appendLabel_good {ls : List LabelRec} (hg : goodLabels ls)
    (u : String) (t : Track) : goodLabels (appendLabel u t ls) := by
  unfold appendLabel
  split_ifs with hc
  · have hmap : namesOf (ls ++ [⟨t.label, u⟩]) = namesOf ls ++ [t.label] := by
      simp [namesOf]
    constructor
    · rw [hmap, List.nodup_append]
      exact ⟨hg.1, List.nodup_singleton _, List.disjoint_singleton.mpr hc.2⟩
    · intro l hl
      rcases List.mem_append.mp hl with h | h
      · exact hg.2 l h
      · rw [List.mem_singleton.mp h]
        exact hc.1
  · exact hg

/-- The guarded append grows the collection by at most one entry. -/
theorem appendLabel_length_le (u : String) (t : Track) (ls : List LabelRec) :
    (appendLabel u t ls).length ≤ ls.length + 1 := by
  unfold appendLabel
  split_ifs
  · rw [List.length_append, List.length_singleton]
  · omega

/-- Invariant of the inner track loop: from a good collection of fewer than 8
entries it produces a good collection, of exactly 8 entries when it returned
early and of fewer than 8 entries otherwise. -/
theorem processTracks_spec (u : String) (ts : List Track) :
    ∀ ls : List LabelRec, goodLabels ls → ls.length < 8 →
      goodLabels (processTracks u ts ls).1 ∧
      ((processTracks u ts ls).2 = true → (processTracks u ts ls).1.length = 8) ∧
      ((processTracks u ts ls).2 = false → (processTracks u ts ls).1.length < 8) := by
  induction ts with
  | nil =>
    intro ls hg hlen
    have hnil : processTracks u [] ls = (ls, false) := rfl
    rw [hnil]
    exact ⟨hg, by simp, fun _ => hlen⟩
  | cons t ts ih =>
    intro ls hg hlen
    have hg2 := appendLabel_good hg u t
    have hle := appendLabel_length_le u t ls
    have hstep : processTracks u (t :: ts) ls =
        if 8 ≤ (appendLabel u t ls).length then (appendLabel u t ls, true)
        else processTracks u ts (appendLabel u t ls) := rfl
    by_cases h8 : 8 ≤ (appendLabel u t ls).length
    · rw [hstep, if_pos h8]
      exact ⟨hg2, fun _ => show (appendLabel u t ls).length = 8 by omega, by simp⟩
    · rw [hstep, if_neg h8]
      exact ih (appendLabel u t ls) hg2 (by omega)

/-- Invariant of the artist loop: same shape as `processTracks_spec`, for every
successful outcome. -/
theorem processArtists_spec (c : Catalog) (as : List Artist) :
    ∀ ls : List LabelRec, goodLabels ls → ls.length < 8 →
      ∀ r, processArtists c as ls = .ok r →
        goodLabels r.1 ∧ (r.2 = true → r.1.length = 8) ∧ (r.2 = false → r.1.length < 8) := by
  induction as with
  | nil =>
    intro ls hg hlen r hr
    simp only [processArtists, Except.ok.injEq] at hr
    rw [← hr]
    exact ⟨hg, by simp, fun _ => hlen⟩
  | cons a as ih =>
    intro ls hg hlen r hr
    rcases htt : c.artistTopTracks a.id with e | tracks
    · simp only [processArtists, htt] at hr
      cases hr
    · simp only [processArtists, htt] at hr
      have hts := processTracks_spec a.url (tracks.take 2) ls hg hlen
      by_cases hdone : (processTracks a.url (tracks.take 2) ls).2 = true
      · rw [if_pos hdone] at hr
        simp only [Except.ok.injEq] at hr
        rw [← hr]
        exact ⟨hts.1, fun _ => hts.2.1 hdone, fun hf => by rw [hf] at hdone; cases hdone⟩
      · rw [if_neg hdone] at hr
        exact ih _ hts.1 (hts.2.2 (by simpa using hdone)) r hr

/-- Invariant of the keyword loop: same shape as `processArtists_spec`. -/
theorem processKeywords_spec (c : Catalog) (ks : List String) :
    ∀ ls : List LabelRec, goodLabels ls → ls.length < 8 →
      ∀ r, processKeywords c ks ls = .ok r →
        goodLabels r.1 ∧ (r.2 = true → r.1.length = 8) ∧ (r.2 = false → r.1.length < 8) := by
  induction ks with
  | nil =>
    intro ls hg hlen r hr
    simp only [processKeywords, Except.ok.injEq] at hr
    rw [← hr]
    exact ⟨hg, by simp, fun _ => hlen⟩
  | cons k ks ih =>
    intro ls hg hlen r hr
    rcases hsa : c.searchArtists ("genre:" ++ k) with e | artists
    · simp only [processKeywords, hsa] at hr
      cases hr
    · simp only [processKeywords, hsa] at hr
      rcases hpa : processArtists c artists ls with e | ra
      · rw [hpa] at hr
        cases hr
      · rw [hpa] at hr
        simp only at hr
        have has := processArtists_spec c artists ls hg hlen ra hpa
        by_cases hdone : ra.2 = true
        · rw [if_pos hdone] at hr
          simp only [Except.ok.injEq] at hr
          rw [← hr]
          exact ⟨has.1, fun _ => has.2.1 hdone, fun hf => by rw [hf] at hdone; cases hdone⟩
        · rw [if_neg hdone] at hr
          exact ih _ has.1 (has.2.2 (by simpa using hdone)) r hr

/-- Truncation preserves the label invariant. -/
theorem goodLabels_take (n : Nat) {ls : List LabelRec} (hg : goodLabels ls) :
    goodLabels (ls.take n) := by
  constructor
  · have hmap : namesOf (ls.take n) = (namesOf ls).take n := by
      simp [namesOf, List.map_take]
    rw [hmap]
    exact List.Nodup.sublist (List.take_sublist n (namesOf ls)) hg.1
  · intro l hl
    exact hg.2 l (List.take_subset n ls hl)

/-- The curated fallback lists are good and have exactly 3 entries. -/
theorem fallback_good (t : ℚ) :
    goodLabels (get_fallback_labels t) ∧ (get_fallback_labels t).length = 3 := by
  unfold get_fallback_labels
  split_ifs <;> exact ⟨⟨by decide, by decide⟩, rfl⟩

/-- A string with a non-empty left component of an append is non-empty. -/
theorem append_ne_empty (s t : String) (h : 0 < s.length) : s ++ t ≠ "" := by
  intro h0
  have hlen := congrArg String.length h0
  rw [String.length_append] at hlen
  have hz : String.length "" = 0 := rfl
  omega

/-- Claim C3: for every tempo and every behaviour of the catalog client
(unconfigured, failing, or returning any artists and tracks), the list returned
by `search_labels_on_spotify` has at most 8 entries, no two entries share a
name (case-sensitive), and every entry has a non-empty name (an entry is
appended only when its label is non-empty). -/
theorem C3_theorem (sp : Option Catalog) (tempo : ℚ) :
    (search_labels_on_spotify sp tempo).length ≤ 8 ∧
    (namesOf (search_labels_on_spotify sp tempo)).Nodup ∧
    ∀ l ∈ search_labels_on_spotify sp tempo, l.name ≠ "" := by
  cases sp with
  | none =>
    have hred : search_labels_on_spotify none tempo = notConfiguredLabels := rfl
    rw [hred]
    exact ⟨by decide, by decide, by decide⟩
  | some c =>
    rcases hpk : processKeywords c ((get_genre_keywords tempo).take 2) [] with e | r
    · simp only [search_labels_on_spotify, hpk]
      refine ⟨by simp, by simp [namesOf], ?_⟩
      intro l hl
      rw [List.mem_singleton.mp hl]
      exact append_ne_empty ("Search error: ") e (by decide)
    · have hspec := processKeywords_spec c ((get_genre_keywords tempo).take 2) []
        goodLabels_nil (by norm_num) r hpk
      rcases r with ⟨ls, done⟩
      cases done with
      | true =>
        simp only [search_labels_on_spotify, hpk]
        exact ⟨le_of_eq (hspec.2.1 rfl), hspec.1.1, hspec.1.2⟩
      | false =>
        simp only [search_labels_on_spotify, hpk]
        have hgood : goodLabels (if ls.isEmpty then get_fallback_labels tempo else ls) := by
          split_ifs
          · exact (fallback_good tempo).1
          · exact hspec.1
        refine ⟨?_, (goodLabels_take 8 hgood).1, (goodLabels_take 8 hgood).2⟩
        rw [List.length_take]
        omega

/-- Claim C3, witness: the bound and the non-empty-name property evaluated on
the unconfigured-client result at tempo 100. -/
theorem C3_witness :
    (search_labels_on_spotify none 100).length ≤ 8 ∧
    LabelRec.name ⟨"Spotify API not configured", "https://developer.spotify.com/dashboard"⟩ ≠ "" :=
  ⟨(C3_theorem none 100).1,
   (C3_theorem none 100).2.2
     ⟨"Spotify API not configured", "https://developer.spotify.com/dashboard"⟩ (by decide)⟩

/-- Claim C4, counterexample.  The claim says the curated fallback is keyed by
the same six BPM intervals as `classify_style` with distinct entries per
interval; but `get_fallback_labels` has only five branches, so tempos 150 and
170, which lie in different style intervals, receive the identical fallback
list when a configured catalog completes with zero entries. -/
theorem C4_counterexample :
    search_labels_on_spotify (some emptyCatalog) 150 =
      search_labels_on_spotify (some emptyCatalog) 170 ∧
    classify_style 150 ≠ classify_style 170 := by
  constructor <;> decide

/-- Claim C4, amended.  When the catalog client is configured and the search
completes without error but collects zero entries, the result is the curated
fallback list; the fallback is keyed by five BPM intervals (the first four of
`classify_style`, with the two intervals at and above 140 merged), has exactly
3 entries with pairwise-distinct names per interval, every tempo at or above
140 receives Hospital Records / RAM Records / Critical Music, and tempo 70
receives Ninja Tune / Ghostly International / Warp Records. -/
theorem C4_theorem :
    (∀ (c : Catalog) (tempo : ℚ),
        processKeywords c ((get_genre_keywords tempo).take 2) [] = .ok ([], false) →
        search_labels_on_spotify (some c) tempo = get_fallback_labels tempo)
  ∧ (∀ t : ℚ, get_fallback_labels t = fallbackOfBucket (min (tempoBucket t) 4))
  ∧ (∀ t : ℚ, (get_fallback_labels t).length = 3 ∧ (namesOf (get_fallback_labels t)).Nodup)
  ∧ (∀ t : ℚ, 140 ≤ t →
      get_fallback_labels t =
        [⟨"Hospital Records", "https://open.spotify.com/label/0aT7J5CbM8kHPVnFLGZsLz"⟩,
         ⟨"RAM Records", "https://open.spotify.com/label/0aT7J5CbM8kHPVnFLGZsLz"⟩,
         ⟨"Critical Music", "https://open.spotify.com/label/0aT7J5CbM8kHPVnFLGZsLz"⟩])
  ∧ get_fallback_labels 70 =
      [⟨"Ninja Tune", "https://open.spotify.com/label/0aOC4pKKYl9wDLqaScqBKq"⟩,
       ⟨"Ghostly International", "https://open.spotify.com/label/0f1J4JvjYbVB1p1ZvLQmZg"⟩,
       ⟨"Warp Records", "https://open.spotify.com/label/0aT7J5CbM8kHPVnFLGZsLz"⟩] := by
  refine ⟨?_, get_fallback_labels_eq, ?_, ?_, by decide⟩
  · intro c tempo h
    simp only [search_labels_on_spotify, h, List.isEmpty_nil, if_true]
    exact List.take_of_length_le (by rw [(fallback_good tempo).2]; norm_num)
  · intro t
    exact ⟨(fallback_good t).2, (fallback_good t).1.1⟩
  · intro t ht
    have hb : min (tempoBucket t) 4 = 4 := by
      unfold tempoBucket
      split_ifs <;> first | linarith | rfl
    rw [get_fallback_labels_eq, hb]
    rfl

/-- Claim C4, witness: the zero-entry fallback substitution applied to a
configured catalog that returns empty results at tempo 70, and the merged
interval evaluated at tempo 150. -/
theorem C4_witness :
    search_labels_on_spotify (some emptyCatalog) 70 = get_fallback_labels 70 ∧
    get_fallback_labels 150 =
      [⟨"Hospital Records", "https://open.spotify.com/label/0aT7J5CbM8kHPVnFLGZsLz"⟩,
       ⟨"RAM Records", "https://open.spotify.com/label/0aT7J5CbM8kHPVnFLGZsLz"⟩,
       ⟨"Critical Music", "https://open.spotify.com/label/0aT7J5CbM8kHPVnFLGZsLz"⟩] :=
  ⟨C4_theorem.1 emptyCatalog 70 rfl, C4_theorem.2.2.2.1 150 (by norm_num)⟩

/-- Claim C5: when the catalog client is not configured, the recommender
returns exactly the fixed 3-element configuration-prompt list, for every tempo,
and no catalog call is involved (the result is produced before any query in
the source, src/main.py lines 81-86). -/
theorem C5_theorem (tempo : ℚ) :
    search_labels_on_spotify none tempo =
      [⟨"Spotify API not configured", "https://developer.spotify.com/dashboard"⟩,
       ⟨"Set SPOTIFY_CLIENT_ID", "https://developer.spotify.com/dashboard"⟩,
       ⟨"Set SPOTIFY_CLIENT_SECRET", "https://developer.spotify.com/dashboard"⟩] :=
  rfl

/-- Claim C6: if any catalog call made during the search fails, the whole
search aborts and the function returns the single-entry diagnostic list, never
the curated fallback. -/
theorem C6_theorem (c : Catalog) (tempo : ℚ) (e : String)
    (h : processKeywords c ((get_genre_keywords tempo).take 2) [] = .error e) :
    search_labels_on_spotify (some c) tempo = [⟨"Search error: " ++ e, ""⟩] := by
  simp only [search_labels_on_spotify, h]

/-- Claim C6, witness: the abort evaluated on a catalog whose calls all fail
with "network down", at tempo 100. -/
theorem C6_witness :
    search_labels_on_spotify (some failingCatalog) 100 =
      [⟨"Search error: " ++ "network down", ""⟩] :=
  C6_theorem failingCatalog 100 ("network down") rfl

/-- Claim C7: the claim (cleanup on every exit path) fails on the code.  The
handler assigns `temp_path` only after reading the upload body and writing it
to the temporary file (src/main.py line 226); when reading or writing raises,
the `finally` block references the unbound `temp_path` and itself raises, so
the temporary file created by `NamedTemporaryFile(delete=False)` remains on
disk.  The first conjunct evaluates the handler at such a failing input; the
remaining conjuncts show cleanup does happen on the success path, on the
500 path, and on the 400 path (where no file was created). -/
theorem C7_theorem :
    (analyze_track ⟨"track.wav", .error ("client disconnected"), .ok 120, none⟩).tempRemains
        = true ∧
    (analyze_track ⟨"track.wav", .error ("client disconnected"), .ok 120, none⟩).tempCreated
        = true ∧
    (analyze_track ⟨"track.wav", .ok ("RIFF data"), .ok 120, none⟩).tempRemains = false ∧
    (analyze_track ⟨"track.wav", .ok ("RIFF data"), .error ("decode failed"), none⟩).tempRemains
        = false ∧
    (analyze_track ⟨"track.mp3", .ok ("RIFF data"), .ok 120, none⟩).tempRemains = false := by
  refine ⟨rfl, rfl, rfl, rfl, rfl⟩

/-- Claim C8: an upload whose lowercased filename does not end in ".wav" gets
a 400 with detail "Only WAV files are supported", with no temporary file
created and no decoding attempted (the result is the same constant for every
read and decode behaviour); and when the extension check passes, the upload is
persisted, and the decode-and-detect step fails, the handler returns a 500
whose detail is "Analysis failed: " followed by the message, with the
temporary file removed. -/
theorem C8_theorem :
    (∀ env : AnalyzeEnv, wavCheck env.filename = false →
        analyze_track env = ⟨.clientError 400 ("Only WAV files are supported"), false, false⟩)
  ∧ (∀ (env : AnalyzeEnv) (content m : String),
        wavCheck env.filename = true → env.readContent = .ok content →
        env.rawBpm = .error m →
        analyze_track env = ⟨.serverError 500 ("Analysis failed: " ++ m), true, false⟩) := by
  constructor
  · intro env h
    simp only [analyze_track, h, if_true]
  · intro env content m hw hr hb
    simp only [analyze_track, hw, hr, hb]
    simp

/-- Claim C8, witness: the 400 path evaluated at an .mp3 upload and the 500
path evaluated at a .wav upload whose decoding fails. -/
theorem C8_witness :
    analyze_track ⟨"song.mp3", .ok ("x"), .ok 120, none⟩ =
      ⟨.clientError 400 ("Only WAV files are supported"), false, false⟩ ∧
    analyze_track ⟨"song.wav", .ok ("x"), .error ("decode error"), none⟩ =
      ⟨.serverError 500 ("Analysis failed: " ++ "decode error"), true, false⟩ :=
  ⟨C8_theorem.1 ⟨"song.mp3", .ok ("x"), .ok 120, none⟩ rfl,
   C8_theorem.2 ⟨"song.wav", .ok ("x"), .error ("decode error"), none⟩ "x" "decode error"
     rfl rfl rfl⟩

/-- Claim C9: the tempo delivered to the classifier is always strictly
positive: a detector report that is not greater than 0 is replaced by the
default 120, and a positive report is returned unchanged. -/
theorem C9_theorem (rawBpm : ℚ) :
    0 < detect_bpm_aubio rawBpm ∧
    (rawBpm ≤ 0 → detect_bpm_aubio rawBpm = 120) ∧
    (0 < rawBpm → detect_bpm_aubio rawBpm = rawBpm) := by
  unfold detect_bpm_aubio
  split_ifs with h
  · exact ⟨h, fun h0 => absurd h (not_lt.mpr h0), fun _ => rfl⟩
  · exact ⟨by norm_num, fun _ => rfl, fun h0 => absurd h0 h⟩

/-- Claim C9, witness: the default at a non-positive report and the identity at
a positive report. -/
theorem C9_witness : detect_bpm_aubio (-3) = 120 ∧ detect_bpm_aubio 130 = 130 :=
  ⟨(C9_theorem (-3)).2.1 (by norm_num), (C9_theorem 130).2.2 (by norm_num)⟩

/-- Claim C10: the /analyze filename check is case-insensitive on the
extension: the handler rejects with the 400 exactly when the lowercased
filename does not end in ".wav"; filenames ending in ".WAV" or ".Wav" pass;
and the handler's entire result depends on the filename only through this
suffix test. -/
theorem C10_theorem :
    (∀ env : AnalyzeEnv,
        (analyze_track env).outcome = .clientError 400 ("Only WAV files are supported") ↔
          wavCheck env.filename = false)
  ∧ wavCheck ("track.WAV") = true
  ∧ wavCheck ("track.Wav") = true
  ∧ (∀ (s₁ s₂ : String), wavCheck s₁ = wavCheck s₂ →
      ∀ (rc : Except String String) (rb : Except String ℚ) (sp : Option Catalog),
        analyze_track ⟨s₁, rc, rb, sp⟩ = analyze_track ⟨s₂, rc, rb, sp⟩) := by
  refine ⟨?_, rfl, rfl, ?_⟩
  · intro env
    constructor
    · intro h
      by_contra hw
      rw [Bool.not_eq_false] at hw
      revert h
      simp only [analyze_track, hw]
      rcases hrc : env.readContent with e | content
      · simp
      · rcases hrb : env.rawBpm with m | raw
        · simp
        · simp
    · intro h
      simp only [analyze_track, h, if_true]
  · intro s₁ s₂ h rc rb sp
    simp only [analyze_track]
    rw [h]

/-- Claim C10, witness: an upper-case .WAV filename is not rejected, and two
filenames agreeing on the suffix test produce identical results. -/
theorem C10_witness :
    (analyze_track ⟨"track.WAV", .ok ("x"), .ok 120, none⟩).outcome ≠
      .clientError 400 ("Only WAV files are supported") ∧
    analyze_track ⟨"a.wav", .ok ("x"), .ok 120, none⟩ =
      analyze_track ⟨"b.WAV", .ok ("x"), .ok 120, none⟩ :=
  ⟨fun h => absurd ((C10_theorem.1 ⟨"track.WAV", .ok ("x"), .ok 120, none⟩).mp h) (by decide),
   C10_theorem.2.2.2 "a.wav" "b.WAV" rfl (.ok ("x")) (.ok 120) none⟩

end BeatMatch
